import Mathlib

/-!
Verification of the drone-authentication protocol implementation
(`ZKPModule.cc`, `GroundStation.cc`, `DroneAuthApp.cc`) against its
natural-language specification.

The C++ sources are shallowly embedded as executable Lean definitions:

* byte buffers are `List Nat` (each entry one `uint8_t`; length fields read
  back with `readLE` reduce modulo 256 to model the byte width);
* `std::map` becomes an association list with `mapLookup`/`mapInsert`/
  `mapErase`;
* wall-clock readings and measured durations are passed in as explicit
  parameters (the code reads `std::chrono` clocks at those points);
* randomness (`generateChallenge`'s random bytes) is passed in as an explicit
  parameter: the handler is modelled as a function of the challenge string it
  would have generated;
* fallible paths return `Option`/`Except`: `none` marks an abnormal outcome
  (an out-of-bounds read, which is undefined behavior in the C++, or an
  uncaught `std::runtime_error` propagating out of the handler).

The `provingKey`/`verificationKey` byte vectors of `ZKPModule` are generated
by `generateKeys` but never read anywhere in the repository, so the embedding
records only the `keysGenerated` flag.
-/

namespace DroneAuth

/-- Little-endian bytes of a `uint32_t` value, as written by
`result.insert(result.end(), (uint8_t*)&sz, (uint8_t*)&sz + 4)`: the value is
truncated to 32 bits by the `uint32_t` store. -/
def le32 (n : Nat) : List Nat :=
  [n % 256, n / 256 % 256, n / 65536 % 256, n / 16777216 % 256]

/-- Little-endian bytes of a `uint64_t` value (the 8-byte timestamp write). -/
def le64 (n : Nat) : List Nat :=
  [n % 256, n / 256 % 256, n / 65536 % 256, n / 16777216 % 256,
   n / 4294967296 % 256, n / 1099511627776 % 256,
   n / 281474976710656 % 256, n / 72057594037927936 % 256]

/-- Value reassembled by `memcpy` of little-endian bytes into an unsigned
integer. Bytes are reduced modulo 256 because the source buffer holds
`uint8_t`. -/
def readLE (bytes : List Nat) : Nat :=
  bytes.foldr (fun b acc => b % 256 + 256 * acc) 0

/-- Read `n` bytes of `data` starting at `offset`. `none` when the read would
run past the end of the buffer — in the C++ this is an out-of-bounds memory
access (undefined behavior), not an exception. -/
def readBytes (data : List Nat) (offset n : Nat) : Option (List Nat) :=
  if offset + n ≤ data.length then some ((data.drop offset).take n) else none

/-- `droneauth::ZKProof` (ZKPModule.h): proof data, commitment, challenge
string, and a `uint64_t` timestamp. The challenge `std::string` is kept as
its byte contents. -/
structure ZKProof where
  proofData : List Nat
  commitment : List Nat
  challenge : List Nat
  timestamp : Nat
deriving DecidableEq

/-- `ZKProof::serialize`: length-prefixed fields in order, then the 8-byte
timestamp, all little-endian. -/
def ZKProof.serialize (p : ZKProof) : List Nat :=
  le32 p.proofData.length ++ p.proofData ++
  le32 p.commitment.length ++ p.commitment ++
  le32 p.challenge.length ++ p.challenge ++
  le64 p.timestamp

/-- `ZKProof::deserialize`: reads each length field and then that many bytes,
advancing `offset` exactly as the C++ does (the C++ locals `proofSize`,
`commitSize` and `chalLen` are inlined here as `readLE szb`, `readLE cb` and
`readLE hb`). The C++ performs every one of these reads without any bounds
check; a read past the end of `data` is an out-of-bounds access, modelled as
`none`. -/
def ZKProof.deserialize (data : List Nat) : Option ZKProof :=
  match readBytes data 0 4 with
  | none => none
  | some szb =>
    match readBytes data 4 (readLE szb) with
    | none => none
    | some proofData =>
      match readBytes data (4 + readLE szb) 4 with
      | none => none
      | some cb =>
        match readBytes data (4 + readLE szb + 4) (readLE cb) with
        | none => none
        | some commitment =>
          match readBytes data (4 + readLE szb + 4 + readLE cb) 4 with
          | none => none
          | some hb =>
            match readBytes data (4 + readLE szb + 4 + readLE cb + 4) (readLE hb) with
            | none => none
            | some challenge =>
              match readBytes data
                  (4 + readLE szb + 4 + readLE cb + 4 + readLE hb) 8 with
              | none => none
              | some tb =>
                some { proofData := proofData, commitment := commitment,
                       challenge := challenge, timestamp := readLE tb }

/-- `ZKPModule::ProofStats`. The two time fields hold the measured durations
the engine stored; the embedding treats a measured duration as an opaque
number supplied by the clock. -/
structure ProofStats where
  proofSize : Nat
  commitmentSize : Nat
  generationTime : Nat
  verificationTime : Nat
deriving DecidableEq

/-- State of a `droneauth::ZKPModule` instance (ZKPModule.h private fields;
the never-read `provingKey`/`verificationKey` byte vectors are represented
only by the `keysGenerated` flag). Identities are byte strings. -/
structure ZKPModule where
  privateSecret : List Nat
  publicCommitment : List Nat
  droneId : List Nat
  sessionNonce : List Nat
  lastStats : ProofStats
  proverInitialized : Bool
  verifierInitialized : Bool
  keysGenerated : Bool
  lastChallenge : List Nat
deriving DecidableEq

/-- The `ZKPModule()` constructor: all flags false, stats zeroed. -/
def ZKPModule.empty : ZKPModule :=
  { privateSecret := [], publicCommitment := [], droneId := [], sessionNonce := [],
    lastStats := { proofSize := 0, commitmentSize := 0, generationTime := 0,
                   verificationTime := 0 },
    proverInitialized := false, verifierInitialized := false, keysGenerated := false,
    lastChallenge := [] }

/-- `ZKPModule::setup` calls `generateKeys`, which fills the (never-read) key
vectors with random bytes and sets `keysGenerated`. -/
def ZKPModule.setup (m : ZKPModule) : ZKPModule :=
  { m with keysGenerated := true }

/-- `ZKPModule::initializeVerifier`: store the given commitment and identity
and mark the verifier state initialized. The verifier never receives a
secret. -/
def ZKPModule.initVerifier (m : ZKPModule) (commitment : List Nat)
    (id : List Nat) : ZKPModule :=
  { m with publicCommitment := commitment, droneId := id, verifierInitialized := true }

/-- `ZKPModule::generateChallenge`: returns a fresh random challenge string
and stores it in `lastChallenge`. The string's random content is supplied by
the caller of the model (`chal`). -/
def ZKPModule.generateChallenge (m : ZKPModule) (chal : List Nat) :
    List Nat × ZKPModule :=
  (chal, { m with lastChallenge := chal })

/-- The value of `(int64_t)n` for a `uint64_t` value `n`: two's-complement
reinterpretation of the low 64 bits. -/
def toInt64 (n : Nat) : Int :=
  if n % 18446744073709551616 < 9223372036854775808 then
    ((n % 18446744073709551616 : Nat) : Int)
  else
    ((n % 18446744073709551616 : Nat) : Int) - 18446744073709551616

/-- `ZKPModule::verifyProof`. `now` is the `system_clock` reading taken
during the call and `elapsed` the duration measured by the surrounding
`high_resolution_clock` pair. Throws (`.error`) when the verifier state was
never initialized; otherwise returns `false` on a proof-data size other than
`SHA256_DIGEST_LENGTH` (32), a commitment mismatch, or a timestamp more than
5 000 000 000 clock ticks (5 seconds in nanoseconds) away from `now` — and
`true` otherwise. Note the measured `verificationTime` is stored only on the
path that returns `true`; the three early `return false` paths leave
`lastStats` untouched. -/
def ZKPModule.verifyProof (m : ZKPModule) (proof : ZKProof) (now elapsed : Nat) :
    Except String (Bool × ZKPModule) :=
  if m.verifierInitialized = false then
    .error "Verifier not initialized"
  else if proof.proofData.length ≠ 32 then
    .ok (false, m)
  else if proof.commitment ≠ m.publicCommitment then
    .ok (false, m)
  else if (toInt64 now - toInt64 proof.timestamp).natAbs > 5000000000 then
    .ok (false, m)
  else
    .ok (true, { m with lastStats := { m.lastStats with verificationTime := elapsed } })

/-- `ZKPModule::getLastProofStats`. -/
def ZKPModule.getLastProofStats (m : ZKPModule) : ProofStats :=
  m.lastStats

section AssocMap

variable {κ α : Type} [DecidableEq κ]

/-- `std::map` lookup (`find` / presence test). -/
def mapLookup (k : κ) : List (κ × α) → Option α
  | [] => none
  | (k', v) :: t => if k' = k then some v else mapLookup k t

/-- `std::map` subscript assignment `m[k] = v`: replaces the entry for `k`
if present, otherwise adds one. -/
def mapInsert (k : κ) (v : α) : List (κ × α) → List (κ × α)
  | [] => [(k, v)]
  | (k', v') :: t => if k' = k then (k, v) :: t else (k', v') :: mapInsert k v t

/-- `std::map::erase(k)`. -/
def mapErase (k : κ) : List (κ × α) → List (κ × α)
  | [] => []
  | (k', v') :: t => if k' = k then t else (k', v') :: mapErase k t

end AssocMap

/-- A client identity: the byte contents of its `std::string` name. -/
abbrev Identity := List Nat

/-- A return address: `(L3Address, port)` pair, the address kept opaque. -/
abbrev Addr := String × Nat

/-- The one-byte AUTH_FAILURE message (`sendAuthFailure`). -/
def authFailureMsg : List Nat := [5]

/-- The one-byte AUTH_SUCCESS message (`sendAuthSuccess`). -/
def authSuccessMsg : List Nat := [4]

/-- The CHALLENGE message `[0x02] [challenge_len:u32] [challenge]` built in
`handleAuthRequest`. -/
def challengeMsg (c : List Nat) : List Nat :=
  2 :: (le32 c.length ++ c)

/-- ASCII bytes of `"DRONE_001"`. -/
def drone001 : Identity := [68, 82, 79, 78, 69, 95, 48, 48, 49]

/-- ASCII bytes of `"DRONE_002"`. -/
def drone002 : Identity := [68, 82, 79, 78, 69, 95, 48, 48, 50]

/-- ASCII bytes of `"DRONE_003"`. -/
def drone003 : Identity := [68, 82, 79, 78, 69, 95, 48, 48, 51]

/-- ASCII bytes of `"DRONE_004"`. -/
def drone004 : Identity := [68, 82, 79, 78, 69, 95, 48, 48, 52]

/-- ASCII bytes of `"DRONE_005"`. -/
def drone005 : Identity := [68, 82, 79, 78, 69, 95, 48, 48, 53]

/-- The static authorization set built in the `GroundStation` constructor:
`{"DRONE_001", ..., "DRONE_005"}`. -/
def authorizedDrones : List Identity :=
  [drone001, drone002, drone003, drone004, drone005]

/-- Server-side state of `GroundStation` (GroundStation.h): per-identity
verifier instances, pending challenges, return addresses, and the three
counters. -/
structure GroundStation where
  droneVerifiers : List (Identity × ZKPModule)
  pendingChallenges : List (Identity × List Nat)
  droneAddresses : List (Identity × Addr)
  numAuthRequests : Nat
  numAuthSuccess : Nat
  numAuthFailures : Nat
deriving DecidableEq

/-- The ground station's state right after `initialize`: empty maps, zero
counters. -/
def GroundStation.start : GroundStation :=
  { droneVerifiers := [], pendingChallenges := [], droneAddresses := [],
    numAuthRequests := 0, numAuthSuccess := 0, numAuthFailures := 0 }

/-- `GroundStation::handleAuthRequest`. `chal` is the challenge string
`generateChallenge` would produce on this call. Returns the new state and
the list of `(bytes, destination)` packets sent. Mirrors the source exactly:
request counter first; undersized buffers answered with AUTH_FAILURE (without
touching the failure counter); the authorization check after parsing the
identity (failure counter incremented there); `initializeVerifier` only when
no verifier exists yet for the identity; then challenge generation, overwrite
of the pending challenge and return address, and the CHALLENGE reply. -/
def GroundStation.handleAuthRequest (gs : GroundStation) (data : List Nat)
    (src : Addr) (chal : List Nat) : GroundStation × List (List Nat × Addr) :=
  let gs := { gs with numAuthRequests := gs.numAuthRequests + 1 }
  if data.length < 9 then
    (gs, [(authFailureMsg, src)])
  else
    let idLen := readLE ((data.drop 1).take 4)
    if data.length < 5 + idLen + 4 then
      (gs, [(authFailureMsg, src)])
    else
      let droneId := (data.drop 5).take idLen
      if droneId ∉ authorizedDrones then
        ({ gs with numAuthFailures := gs.numAuthFailures + 1 },
         [(authFailureMsg, src)])
      else
        let commitLen := readLE ((data.drop (5 + idLen)).take 4)
        if data.length < 5 + idLen + 4 + commitLen then
          (gs, [(authFailureMsg, src)])
        else
          let commitment := (data.drop (5 + idLen + 4)).take commitLen
          let verifier :=
            match mapLookup droneId gs.droneVerifiers with
            | none => (ZKPModule.empty.setup).initVerifier commitment droneId
            | some v => v
          let (challenge, verifier) := verifier.generateChallenge chal
          ({ gs with
              droneVerifiers := mapInsert droneId verifier gs.droneVerifiers,
              pendingChallenges := mapInsert droneId challenge gs.pendingChallenges,
              droneAddresses := mapInsert droneId src gs.droneAddresses },
           [(challengeMsg challenge, src)])

/-- The body of `GroundStation::handleProof` after a successful
deserialization: scan `pendingChallenges` for an entry whose value equals the
proof's challenge (an empty identity, including the not-found case, is
answered with AUTH_FAILURE), look up the verifier, verify, and on success
record it and erase the pending challenge — on failure record the failure and
leave the pending challenge in place. `none` models the uncaught
`std::runtime_error` a never-initialized verifier would throw. -/
def GroundStation.processProof (gs : GroundStation) (proof : ZKProof)
    (src : Addr) (now elapsed : Nat) :
    Option (GroundStation × List (List Nat × Addr)) :=
  let droneId :=
    match gs.pendingChallenges.find? (fun e => e.2 == proof.challenge) with
    | some e => e.1
    | none => []
  if droneId = [] then
    some (gs, [(authFailureMsg, src)])
  else
    match mapLookup droneId gs.droneVerifiers with
    | none => some (gs, [(authFailureMsg, src)])
    | some verifier =>
      match verifier.verifyProof proof now elapsed with
      | .error _ => none
      | .ok (isValid, verifier') =>
        let gs := { gs with
          droneVerifiers := mapInsert droneId verifier' gs.droneVerifiers }
        if isValid then
          some ({ gs with numAuthSuccess := gs.numAuthSuccess + 1,
                          pendingChallenges := mapErase droneId gs.pendingChallenges },
                [(authSuccessMsg, src)])
        else
          some ({ gs with numAuthFailures := gs.numAuthFailures + 1 },
                [(authFailureMsg, src)])

/-- `GroundStation::handleProof`: an undersized buffer is answered with
AUTH_FAILURE; otherwise the payload after the type byte is deserialized.
`ZKProof::deserialize` performs no bounds checks, so a length field that
overruns the buffer is an out-of-bounds read (`none`): the surrounding
`try`/`catch` only catches C++ exceptions, and neither `memcpy` nor the
overrunning vector reads throw one. -/
def GroundStation.handleProof (gs : GroundStation) (data : List Nat)
    (src : Addr) (now elapsed : Nat) :
    Option (GroundStation × List (List Nat × Addr)) :=
  if data.length < 2 then
    some (gs, [(authFailureMsg, src)])
  else
    match ZKProof.deserialize (data.drop 1) with
    | none => none
    | some proof => gs.processProof proof src now elapsed

/-- Kinds of the drone application's self-messages (`MSG_SEND_AUTH_REQUEST`,
`MSG_SEND_PROOF`, `MSG_AUTH_TIMEOUT`). -/
inductive SelfMsgKind where
  | sendAuthRequest
  | sendProof
  | authTimeout
deriving DecidableEq

/-- Client-side state of `DroneAuthApp` (DroneAuthApp.h) as far as the
protocol observes it: the stored challenge, the two timer flags (whether
`selfMsg` is scheduled and whether `timeoutMsg` currently exists), the three
counters, and the parent module's display color (the GREEN/RED visual
feedback standing in for the Authenticated/Failed outcome). -/
structure DroneAuthApp where
  droneId : List Nat
  currentChallenge : List Nat
  selfMsgScheduled : Bool
  timeoutMsgExists : Bool
  numAuthRequests : Nat
  numAuthSuccess : Nat
  numAuthFailures : Nat
  parentDisplayColor : String
deriving DecidableEq

/-- `DroneAuthApp::handleChallengeMessage` at simulation time `now`: parse
`[0x02] [challenge_len:u32] [challenge]` (undersized messages are dropped
with no reply), overwrite `currentChallenge`, and schedule a `sendProof`
self-message 0.001 s later. No session-state precondition is checked. -/
def DroneAuthApp.handleChallengeMessage (app : DroneAuthApp) (data : List Nat)
    (now : ℚ) : DroneAuthApp × List (ℚ × SelfMsgKind) :=
  if data.length < 5 then
    (app, [])
  else
    let chalLen := readLE ((data.drop 1).take 4)
    if data.length < 5 + chalLen then
      (app, [])
    else
      ({ app with currentChallenge := (data.drop 5).take chalLen },
       [(now + 1 / 1000, SelfMsgKind.sendProof)])

/-- `DroneAuthApp::handleAuthSuccessMessage`: cancel the pending request
timer and the authentication timeout, count the success, turn the drone
green. (The payload is ignored.) -/
def DroneAuthApp.handleAuthSuccessMessage (app : DroneAuthApp)
    (data : List Nat) : DroneAuthApp × List (ℚ × SelfMsgKind) :=
  ({ app with selfMsgScheduled := false, timeoutMsgExists := false,
              numAuthSuccess := app.numAuthSuccess + 1,
              parentDisplayColor := "green" }, [])

/-- `DroneAuthApp::handleAuthFailureMessage`: cancel the authentication
timeout, count the failure, turn the drone red. (The payload is ignored.) -/
def DroneAuthApp.handleAuthFailureMessage (app : DroneAuthApp)
    (data : List Nat) : DroneAuthApp × List (ℚ × SelfMsgKind) :=
  ({ app with timeoutMsgExists := false,
              numAuthFailures := app.numAuthFailures + 1,
              parentDisplayColor := "red" }, [])

/-- `DroneAuthApp::handleAuthTimeout`, fired at simulation time `now` with
retry interval `ri`: delete the fired timeout message, count a failure, turn
the drone red, and schedule `selfMsg` (kind `MSG_SEND_AUTH_REQUEST`) at
`now + ri`. -/
def DroneAuthApp.handleAuthTimeout (app : DroneAuthApp) (now ri : ℚ) :
    DroneAuthApp × List (ℚ × SelfMsgKind) :=
  ({ app with timeoutMsgExists := false, selfMsgScheduled := true,
              numAuthFailures := app.numAuthFailures + 1,
              parentDisplayColor := "red" },
   [(now + ri, SelfMsgKind.sendAuthRequest)])

/-- `DroneAuthApp::handleIncomingMessage`: dispatch on the first byte — 0x02
to the challenge handler, 0x04 to the success handler, 0x05 to the failure
handler; empty buffers and unknown types are dropped. No handler is guarded
by any session-state check. -/
def DroneAuthApp.handleIncomingMessage (app : DroneAuthApp) (data : List Nat)
    (now : ℚ) : DroneAuthApp × List (ℚ × SelfMsgKind) :=
  match data with
  | [] => (app, [])
  | t :: _ =>
    if t = 2 then app.handleChallengeMessage data now
    else if t = 4 then app.handleAuthSuccessMessage data
    else if t = 5 then app.handleAuthFailureMessage data
    else (app, [])

/-! ## Concrete states and messages used by witnesses and counterexamples -/

/-- Concrete verifier state for the C1 witness. -/
def verifierW : ZKPModule :=
  { ZKPModule.empty with verifierInitialized := true, publicCommitment := [9] }

/-- Concrete proof for the C1 witness: 32 bytes of proof data, matching
commitment, timestamp 50 ticks before `now = 100`. -/
def proofW : ZKProof :=
  { proofData := List.replicate 32 0, commitment := [9], challenge := [7],
    timestamp := 50 }

/-- Concrete module and failing proof for the C9 counterexample and
witness. -/
def verifierS : ZKPModule := { ZKPModule.empty with verifierInitialized := true }

/-- A proof whose `proofData` is not 32 bytes, so verification fails. -/
def proofS : ZKProof :=
  { proofData := [], commitment := [], challenge := [], timestamp := 0 }

/-- A small concrete proof exercising the round-trip law. -/
def proofR : ZKProof :=
  { proofData := [1, 2], commitment := [3], challenge := [4, 5, 6],
    timestamp := 99 }

/-- A proof whose `proofData` is exactly `2^32` bytes long: its length
cannot be represented in the `uint32_t` length prefix. -/
def hugeProof : ZKProof :=
  { proofData := List.replicate 4294967296 0, commitment := [], challenge := [],
    timestamp := 0 }

/-- Byte image of an AUTH_REQUEST from the unauthorized identity
`"DRONE_999"` with an empty commitment field. -/
def requestD999 : List Nat :=
  [1, 9, 0, 0, 0, 68, 82, 79, 78, 69, 95, 57, 57, 57, 0, 0, 0, 0]

/-- The verifier already registered for `"DRONE_001"` in the C5 witness:
initialized at first contact with commitment `[14]`. -/
def verifierReg : ZKPModule :=
  (ZKPModule.empty.setup).initVerifier [14] drone001

/-- Ground-station state in which `"DRONE_001"` already has a session. -/
def gsWithSession : GroundStation :=
  { GroundStation.start with
      droneVerifiers := [(drone001, verifierReg)],
      pendingChallenges := [(drone001, [11])],
      droneAddresses := [(drone001, ("10.0.0.3", 33))] }

/-- Byte image of a repeat AUTH_REQUEST from `"DRONE_001"` carrying the
(different) commitment `[15]`. -/
def requestD001 : List Nat :=
  [1, 9, 0, 0, 0, 68, 82, 79, 78, 69, 95, 48, 48, 49, 1, 0, 0, 0, 15]

/-- The verifier for `"DRONE_001"` used by the C3 witness: initialized with
commitment `[2]`. -/
def verifierC3 : ZKPModule := (ZKPModule.empty.setup).initVerifier [2] drone001

/-- Ground-station state with challenge `[10]` pending for `"DRONE_001"`. -/
def gsC3 : GroundStation :=
  { GroundStation.start with
      droneVerifiers := [(drone001, verifierC3)],
      pendingChallenges := [(drone001, [10])] }

/-- A proof that verifies successfully against `verifierC3` at time 0. -/
def proofC3 : ZKProof :=
  { proofData := List.replicate 32 1, commitment := [2], challenge := [10],
    timestamp := 0 }

/-- The verifier registered for `"DRONE_003"` in the C7 witness. -/
def verifierC7 : ZKPModule := (ZKPModule.empty.setup).initVerifier [5] drone003

/-- Ground-station state in which `"DRONE_003"` has a session with the first
challenge `[11]` pending. -/
def gsC7 : GroundStation :=
  { GroundStation.start with
      droneVerifiers := [(drone003, verifierC7)],
      pendingChallenges := [(drone003, [11])] }

/-- Byte image of the second AUTH_REQUEST from `"DRONE_003"` (commitment
`[5]`). -/
def requestD003 : List Nat :=
  [1, 9, 0, 0, 0, 68, 82, 79, 78, 69, 95, 48, 48, 51, 1, 0, 0, 0, 5]

/-- A proof built against the first (now replaced) challenge `[11]`. -/
def proofC7 : ZKProof :=
  { proofData := List.replicate 32 2, commitment := [5], challenge := [11],
    timestamp := 0 }

/-- Client state after a terminal success, for the C10 witness. -/
def appC10 : DroneAuthApp :=
  { droneId := drone001, currentChallenge := [9], selfMsgScheduled := false,
    timeoutMsgExists := false, numAuthRequests := 1, numAuthSuccess := 1,
    numAuthFailures := 0, parentDisplayColor := "green" }

/-- A `std::map` holds each key at most once; the association lists of the
model satisfy the same invariant. -/
def keysNodup {κ α : Type} (m : List (κ × α)) : Prop :=
  (m.map Prod.fst).Nodup

/-! ## Helper lemmas -/

/-- `le32` always produces four bytes. -/
theorem le32_length (n : Nat) : (le32 n).length = 4 := rfl

/-- `le64` always produces eight bytes. -/
theorem le64_length (n : Nat) : (le64 n).length = 8 := rfl

/-- Reassembling the four little-endian bytes of a value recovers it modulo
`2^32` — the truncation the `uint32_t` store performs. -/
theorem readLE_le32 (n : Nat) : readLE (le32 n) = n % 4294967296 := by
  simp only [readLE, le32, List.foldr]
  omega

/-- Reassembling the eight little-endian bytes of a value recovers it modulo
`2^64`. -/
theorem readLE_le64 (n : Nat) : readLE (le64 n) = n % 18446744073709551616 := by
  simp only [readLE, le64, List.foldr]
  omega

/-- Reading from a buffer at the offset and width of a known middle segment
returns exactly that segment. -/
theorem readBytes_append (pre xs rest : List Nat) {off n : Nat}
    (hoff : off = pre.length) (hn : n = xs.length) :
    readBytes (pre ++ (xs ++ rest)) off n = some xs := by
  subst hoff hn
  unfold readBytes
  rw [if_pos]
  · rw [List.drop_left, List.take_left]
  · simp only [List.length_append]
    omega

/-- For a `uint64_t` value that fits in `int64_t`, the `(int64_t)` cast is
the identity. -/
theorem toInt64_of_lt {n : Nat} (h : n < 9223372036854775808) : toInt64 n = n := by
  have hm : n % 18446744073709551616 = n := Nat.mod_eq_of_lt (by omega)
  simp [toInt64, hm, h]

/-- Characterization of `verifyProof` on an initialized verifier: it returns
`true` together with the stats update exactly when the three checks pass,
and `false` with the state untouched otherwise. -/
theorem verifyProof_eq_ite (m : ZKPModule) (proof : ZKProof) (now elapsed : Nat)
    (hinit : m.verifierInitialized = true) :
    m.verifyProof proof now elapsed =
      if proof.proofData.length = 32 ∧ proof.commitment = m.publicCommitment ∧
         (toInt64 now - toInt64 proof.timestamp).natAbs ≤ 5000000000
      then .ok (true, { m with lastStats :=
             { m.lastStats with verificationTime := elapsed } })
      else .ok (false, m) := by
  unfold ZKPModule.verifyProof
  rw [hinit]
  by_cases h1 : proof.proofData.length = 32 <;>
    by_cases h2 : proof.commitment = m.publicCommitment <;>
      by_cases h3 : (toInt64 now - toInt64 proof.timestamp).natAbs ≤ 5000000000 <;>
        simp [h1, h2, h3]

/-! ## C1: semantics of proof verification -/

/-- C1. On an initialized verifier (with clock reading and proof timestamp in
`int64_t` range, as `system_clock` counts are), `verifyProof` returns `true`
iff the proof data is exactly 32 bytes, the commitment equals the stored
commitment, and the timestamp is within 5 000 000 000 ns of `now`; moreover
the result is unchanged when `proofData` is replaced by any other content of
the same length — its content is never compared against any secret-derived
value. -/
theorem verifyProof_matches_spec (m : ZKPModule) (proof : ZKProof)
    (now elapsed : Nat)
    (hinit : m.verifierInitialized = true)
    (hnow : now < 9223372036854775808)
    (hts : proof.timestamp < 9223372036854775808) :
    ∃ b m', m.verifyProof proof now elapsed = .ok (b, m') ∧
      (b = true ↔ proof.proofData.length = 32 ∧
        proof.commitment = m.publicCommitment ∧
        ((now : Int) - (proof.timestamp : Int)).natAbs ≤ 5000000000) ∧
      (∀ pd : List Nat, pd.length = proof.proofData.length →
        ∃ m'', m.verifyProof { proof with proofData := pd } now elapsed =
          .ok (b, m'')) := by
  rw [verifyProof_eq_ite m proof now elapsed hinit,
      toInt64_of_lt hnow, toInt64_of_lt hts]
  by_cases hc : proof.proofData.length = 32 ∧
      proof.commitment = m.publicCommitment ∧
      ((now : Int) - (proof.timestamp : Int)).natAbs ≤ 5000000000
  · refine ⟨true, _, by rw [if_pos hc], by simp [hc], ?_⟩
    intro pd hpd
    rw [verifyProof_eq_ite m _ now elapsed hinit]
    rw [if_pos ⟨by simpa [hpd] using hc.1, hc.2.1,
      by rw [toInt64_of_lt hnow, toInt64_of_lt hts]; exact hc.2.2⟩]
    exact ⟨_, rfl⟩
  · refine ⟨false, _, by rw [if_neg hc], by simp [hc], ?_⟩
    intro pd hpd
    rw [verifyProof_eq_ite m _ now elapsed hinit]
    rw [if_neg fun hcon => hc ⟨by simpa [hpd] using hcon.1, hcon.2.1,
      by have h3 := hcon.2.2; rwa [toInt64_of_lt hnow, toInt64_of_lt hts] at h3⟩]
    exact ⟨_, rfl⟩

/-- Witness for C1 at a concrete initialized verifier and fresh proof. -/
theorem verifyProof_matches_spec_witness :
    ∃ b m', verifierW.verifyProof proofW 100 7 = .ok (b, m') ∧
      (b = true ↔ proofW.proofData.length = 32 ∧
        proofW.commitment = verifierW.publicCommitment ∧
        ((100 : Int) - ((proofW.timestamp : Nat) : Int)).natAbs ≤ 5000000000) ∧
      (∀ pd : List Nat, pd.length = proofW.proofData.length →
        ∃ m'', verifierW.verifyProof { proofW with proofData := pd } 100 7 =
          .ok (b, m'')) :=
  verifyProof_matches_spec verifierW proofW 100 7 rfl (by decide) (by decide)

/-! ## C2: the proof decoder reads past the buffer -/

/-- C2 (code bug). A PROOF message of bytes `[0x03, 0x00]` passes the
`data.size() < 2` guard, so `ZKProof::deserialize` is entered with the
one-byte buffer `[0x00]` — where its very first unchecked `memcpy` of the
4-byte `proofSize` field already reads 3 bytes past the end of the buffer
(`none`): contrary to the claim, the decoder bound-checks nothing, and the
malformed message triggers an out-of-bounds read rather than an
AUTH_FAILURE reply. -/
theorem proof_decoder_reads_out_of_bounds :
    ZKProof.deserialize [0] = none ∧
    GroundStation.handleProof GroundStation.start [3, 0] ("10.0.0.2", 5000) 0 0 =
      none :=
  ⟨rfl, rfl⟩

/-! ## C9: verification statistics are recorded only on success -/

/-- C9 (amended). `verifyProof` writes the measured duration into
`lastStats.verificationTime` only on the path that returns `true`; every
call that returns `false` leaves the module state — statistics included —
completely unchanged. -/
theorem verifyProof_stats_only_on_success (m : ZKPModule) (p : ZKProof)
    (now elapsed : Nat) (b : Bool) (m' : ZKPModule)
    (h : m.verifyProof p now elapsed = .ok (b, m')) :
    m' = if b then
      { m with lastStats := { m.lastStats with verificationTime := elapsed } }
    else m := by
  unfold ZKPModule.verifyProof at h
  split_ifs at h with h0 h1 h2 h3 <;>
    simp only [Except.ok.injEq, Prod.mk.injEq] at h <;>
    obtain ⟨hb, hm⟩ := h <;> subst hb <;> simp [hm]

/-- C9 counterexample: a `verifyProof` call that returns `false` (here with
measured duration 7) returns the state unchanged, so
`getLastProofStats().verificationTime` still reads 0 and does not reflect
this most recent call. -/
theorem failed_verification_skips_stats :
    verifierS.verifyProof proofS 0 7 = .ok (false, verifierS) ∧
    verifierS.getLastProofStats.verificationTime = 0 ∧ (7 : Nat) ≠ 0 :=
  ⟨rfl, rfl, by decide⟩

/-- Witness for the amended C9 at a concrete failing call. -/
theorem verifyProof_stats_only_on_success_witness :
    verifierS = if false then
      { verifierS with lastStats :=
        { verifierS.lastStats with verificationTime := 7 } }
    else verifierS :=
  verifyProof_stats_only_on_success verifierS proofS 0 7 false verifierS rfl

/-! ## C6: serialization round trip -/

/-- Reading from a buffer at the offset and width of its known final segment
returns exactly that segment. -/
theorem readBytes_append_last (pre xs : List Nat) {off n : Nat}
    (hoff : off = pre.length) (hn : n = xs.length) :
    readBytes (pre ++ xs) off n = some xs := by
  subst hoff hn
  unfold readBytes
  rw [if_pos (by simp)]
  rw [List.drop_left, List.take_length]

/-- C6 (amended). For every proof whose three variable-length fields each fit
the wire format's `uint32_t` length prefix (length below `2^32`; the
timestamp is a `uint64_t` so it is below `2^64`), deserializing the
serialization returns exactly the original proof. -/
theorem deserialize_serialize_roundtrip (p : ZKProof)
    (h1 : p.proofData.length < 4294967296)
    (h2 : p.commitment.length < 4294967296)
    (h3 : p.challenge.length < 4294967296)
    (h4 : p.timestamp < 18446744073709551616) :
    ZKProof.deserialize p.serialize = some p := by
  have hS : p.serialize =
      le32 p.proofData.length ++ (p.proofData ++ (le32 p.commitment.length ++
        (p.commitment ++ (le32 p.challenge.length ++ (p.challenge ++
          le64 p.timestamp))))) := by
    simp [ZKProof.serialize, List.append_assoc]
  have hs1 : readBytes p.serialize 0 4 = some (le32 p.proofData.length) := by
    rw [hS]
    exact readBytes_append [] _ _ rfl (le32_length _).symm
  have hs2 : readBytes p.serialize 4 p.proofData.length = some p.proofData := by
    rw [hS]
    exact readBytes_append (le32 p.proofData.length) _ _ (le32_length _).symm rfl
  have hs3 : readBytes p.serialize (4 + p.proofData.length) 4 =
      some (le32 p.commitment.length) := by
    rw [hS, ← List.append_assoc]
    exact readBytes_append _ _ _
      (by simp only [List.length_append, le32_length]) (le32_length _).symm
  have hs4 : readBytes p.serialize (4 + p.proofData.length + 4)
      p.commitment.length = some p.commitment := by
    rw [hS, ← List.append_assoc, ← List.append_assoc]
    exact readBytes_append _ _ _
      (by simp only [List.length_append, le32_length]) rfl
  have hs5 : readBytes p.serialize
      (4 + p.proofData.length + 4 + p.commitment.length) 4 =
      some (le32 p.challenge.length) := by
    rw [hS, ← List.append_assoc, ← List.append_assoc, ← List.append_assoc]
    exact readBytes_append _ _ _
      (by simp only [List.length_append, le32_length]) (le32_length _).symm
  have hs6 : readBytes p.serialize
      (4 + p.proofData.length + 4 + p.commitment.length + 4)
      p.challenge.length = some p.challenge := by
    rw [hS, ← List.append_assoc, ← List.append_assoc, ← List.append_assoc,
      ← List.append_assoc]
    exact readBytes_append _ _ _
      (by simp only [List.length_append, le32_length]) rfl
  have hs7 : readBytes p.serialize
      (4 + p.proofData.length + 4 + p.commitment.length + 4 +
        p.challenge.length) 8 = some (le64 p.timestamp) := by
    rw [hS, ← List.append_assoc, ← List.append_assoc, ← List.append_assoc,
      ← List.append_assoc, ← List.append_assoc]
    exact readBytes_append_last _ _
      (by simp only [List.length_append, le32_length]) (le64_length _).symm
  unfold ZKProof.deserialize
  rw [hs1]
  simp only [readLE_le32, Nat.mod_eq_of_lt h1]
  rw [hs2, hs3]
  simp only [readLE_le32, Nat.mod_eq_of_lt h2]
  rw [hs4, hs5]
  simp only [readLE_le32, Nat.mod_eq_of_lt h3]
  rw [hs6, hs7]
  simp only [readLE_le64, Nat.mod_eq_of_lt h4]

/-- Witness for the amended C6 at a concrete proof with arbitrary (non-hash)
byte contents and distinct field lengths. -/
theorem deserialize_serialize_roundtrip_witness :
    proofR.proofData.length < 4294967296 ∧
    proofR.commitment.length < 4294967296 ∧
    proofR.challenge.length < 4294967296 ∧
    proofR.timestamp < 18446744073709551616 ∧
    ZKProof.deserialize proofR.serialize = some proofR :=
  ⟨by decide, by decide, by decide, by decide,
   deserialize_serialize_roundtrip proofR (by decide) (by decide) (by decide)
     (by decide)⟩

/-- Whenever deserialization succeeds, the recovered `proofData` has exactly
the length announced by the buffer's first four bytes. -/
theorem deserialize_proofData_length {data : List Nat} {q : ZKProof}
    (h : ZKProof.deserialize data = some q) :
    q.proofData.length = readLE (data.take 4) := by
  unfold ZKProof.deserialize at h
  split at h
  · exact absurd h (by simp)
  next szb hx0 =>
    split at h
    · exact absurd h (by simp)
    next pd hx1 =>
      split at h
      · exact absurd h (by simp)
      next cb hx2 =>
        split at h
        · exact absurd h (by simp)
        next cm hx3 =>
          split at h
          · exact absurd h (by simp)
          next hbb hx4 =>
            split at h
            · exact absurd h (by simp)
            next ch hx5 =>
              split at h
              · exact absurd h (by simp)
              next tb hx6 =>
                simp only [Option.some.injEq] at h
                have hq : q.proofData = pd := by rw [← h]
                unfold readBytes at hx0 hx1
                split at hx0
                case isFalse => exact absurd hx0 (by simp)
                case isTrue h0 =>
                  simp only [Option.some.injEq] at hx0
                  rw [List.drop_zero] at hx0
                  subst hx0
                  split at hx1
                  case isFalse => exact absurd hx1 (by simp)
                  case isTrue h1 =>
                    simp only [Option.some.injEq] at hx1
                    rw [hq, ← hx1]
                    simp only [List.length_take, List.length_drop]
                    omega

/-- C6 counterexample: for `hugeProof`, whose `proofData` is `2^32` bytes
long, `serialize` truncates the length prefix to 0, so deserializing the
serialization cannot return the original proof — the round-trip law fails
for arbitrary lengths. -/
theorem roundtrip_fails_at_two_pow_32 :
    ZKProof.deserialize hugeProof.serialize ≠ some hugeProof := by
  intro h
  have hlen := deserialize_proofData_length h
  have hbig : hugeProof.proofData.length = 4294967296 := by
    rw [show hugeProof.proofData = List.replicate 4294967296 0 from rfl,
      List.length_replicate]
  have ht4 : hugeProof.serialize.take 4 = [0, 0, 0, 0] := by
    unfold ZKProof.serialize
    rw [hbig]
    rw [show le32 4294967296 = [0, 0, 0, 0] by decide]
    rfl
  rw [ht4, hbig] at hlen
  exact absurd hlen (by decide)

/-! ## Association-map lemmas -/

/-- Looking up the key just assigned returns the assigned value. -/
theorem mapLookup_mapInsert_self {κ α : Type} [DecidableEq κ] (k : κ) (v : α)
    (m : List (κ × α)) : mapLookup k (mapInsert k v m) = some v := by
  induction m with
  | nil => simp [mapInsert, mapLookup]
  | cons hd tl ih =>
    obtain ⟨k', v'⟩ := hd
    by_cases hk : k' = k
    · simp [mapInsert, mapLookup, hk]
    · simp [mapInsert, mapLookup, hk, ih]

/-- On a key-unique map, every entry of `mapInsert k v m` is either the new
binding or an entry of `m` whose key differs from `k`. -/
theorem mem_mapInsert {κ α : Type} [DecidableEq κ] {k : κ} {v : α}
    {m : List (κ × α)} {e : κ × α} (hnd : keysNodup m)
    (he : e ∈ mapInsert k v m) :
    e = (k, v) ∨ (e ∈ m ∧ e.1 ≠ k) := by
  induction m with
  | nil => simpa [mapInsert] using he
  | cons hd tl ih =>
    obtain ⟨k', v'⟩ := hd
    rw [keysNodup, List.map_cons, List.nodup_cons] at hnd
    by_cases hk : k' = k
    · rw [mapInsert, if_pos hk] at he
      rcases List.mem_cons.mp he with h | h
      · exact Or.inl h
      · refine Or.inr ⟨List.mem_cons_of_mem _ h, fun hek => hnd.1 ?_⟩
        have hmem := List.mem_map_of_mem Prod.fst h
        rw [hek, ← hk] at hmem
        exact hmem
    · rw [mapInsert, if_neg hk] at he
      rcases List.mem_cons.mp he with h | h
      · subst h
        exact Or.inr ⟨List.mem_cons_self _ _, hk⟩
      · rcases ih hnd.2 h with h' | ⟨h1, h2⟩
        · exact Or.inl h'
        · exact Or.inr ⟨List.mem_cons_of_mem _ h1, h2⟩

/-! ## Server-side request handling -/

/-- Characterization of `handleAuthRequest` on a well-formed request from an
authorized identity that already has a verifier: the request counter is
bumped, the existing verifier is kept (only its `lastChallenge` is refreshed
by `generateChallenge`), the pending challenge and return address are
overwritten, and a CHALLENGE message is sent. `initializeVerifier` is not
called on this path, so the stored commitment is whatever `v` already
held. -/
theorem handleAuthRequest_found (gs : GroundStation) (data : List Nat)
    (src : Addr) (chal : List Nat) (idLen commitLen : Nat)
    (droneId : Identity) (v : ZKPModule)
    (hidLen : idLen = readLE ((data.drop 1).take 4))
    (hid : droneId = (data.drop 5).take idLen)
    (hcLen : commitLen = readLE ((data.drop (5 + idLen)).take 4))
    (h9 : ¬ data.length < 9)
    (hfit : ¬ data.length < 5 + idLen + 4)
    (hcfit : ¬ data.length < 5 + idLen + 4 + commitLen)
    (hauth : droneId ∈ authorizedDrones)
    (hv : mapLookup droneId gs.droneVerifiers = some v) :
    gs.handleAuthRequest data src chal =
      ({ gs with
          numAuthRequests := gs.numAuthRequests + 1,
          droneVerifiers :=
            mapInsert droneId { v with lastChallenge := chal } gs.droneVerifiers,
          pendingChallenges := mapInsert droneId chal gs.pendingChallenges,
          droneAddresses := mapInsert droneId src gs.droneAddresses },
       [(challengeMsg chal, src)]) := by
  subst hidLen hid hcLen
  simp only [GroundStation.handleAuthRequest]
  rw [if_neg h9, if_neg hfit, if_neg (not_not_intro hauth), if_neg hcfit, hv]
  simp [ZKPModule.generateChallenge]

/-! ## C4: unauthorized identities get no session and no challenge -/

/-- C4. A well-formed AUTH_REQUEST naming an identity outside the static
authorization set is answered with AUTH_FAILURE and counted as a failure,
and the resulting state differs from the old one only in the two counters:
no verifier is created, no pending challenge is stored, and no return
address is recorded for the identity. -/
theorem unauthorized_request_rejected (gs : GroundStation) (data : List Nat)
    (src : Addr) (chal : List Nat) (idLen : Nat) (droneId : Identity)
    (hidLen : idLen = readLE ((data.drop 1).take 4))
    (hid : droneId = (data.drop 5).take idLen)
    (h9 : ¬ data.length < 9)
    (hfit : ¬ data.length < 5 + idLen + 4)
    (hauth : droneId ∉ authorizedDrones) :
    gs.handleAuthRequest data src chal =
      ({ gs with numAuthRequests := gs.numAuthRequests + 1,
                 numAuthFailures := gs.numAuthFailures + 1 },
       [(authFailureMsg, src)]) := by
  subst hidLen hid
  simp only [GroundStation.handleAuthRequest]
  rw [if_neg h9, if_neg hfit, if_pos hauth]

/-- Witness for C4: the fresh ground station rejects `"DRONE_999"` with
AUTH_FAILURE, leaving maps empty. -/
theorem unauthorized_request_rejected_witness :
    GroundStation.start.handleAuthRequest requestD999 ("10.0.0.9", 40) [7] =
      ({ GroundStation.start with
          numAuthRequests := GroundStation.start.numAuthRequests + 1,
          numAuthFailures := GroundStation.start.numAuthFailures + 1 },
       [(authFailureMsg, ("10.0.0.9", 40))]) :=
  unauthorized_request_rejected GroundStation.start requestD999 ("10.0.0.9", 40)
    [7] 9 [68, 82, 79, 78, 69, 95, 57, 57, 57]
    (by decide) (by decide) (by decide) (by decide) (by decide)

/-! ## C5: the stored commitment is immutable across repeat requests -/

/-- C5. When an identity that already has a verifier sends another
well-formed AUTH_REQUEST, the verifier kept for it afterwards still holds
the originally stored commitment (and initialized flag) — only
`lastChallenge` is refreshed — while the same request has overwritten the
pending challenge and the return address, and a CHALLENGE reply is sent. -/
theorem commitment_immutable_on_repeat_request (gs : GroundStation)
    (data : List Nat) (src : Addr) (chal : List Nat)
    (idLen commitLen : Nat) (droneId : Identity) (v : ZKPModule)
    (hidLen : idLen = readLE ((data.drop 1).take 4))
    (hid : droneId = (data.drop 5).take idLen)
    (hcLen : commitLen = readLE ((data.drop (5 + idLen)).take 4))
    (h9 : ¬ data.length < 9)
    (hfit : ¬ data.length < 5 + idLen + 4)
    (hcfit : ¬ data.length < 5 + idLen + 4 + commitLen)
    (hauth : droneId ∈ authorizedDrones)
    (hv : mapLookup droneId gs.droneVerifiers = some v) :
    mapLookup droneId (gs.handleAuthRequest data src chal).1.droneVerifiers =
      some { v with lastChallenge := chal } ∧
    mapLookup droneId (gs.handleAuthRequest data src chal).1.pendingChallenges =
      some chal ∧
    mapLookup droneId (gs.handleAuthRequest data src chal).1.droneAddresses =
      some src := by
  rw [handleAuthRequest_found gs data src chal idLen commitLen droneId v
    hidLen hid hcLen h9 hfit hcfit hauth hv]
  exact ⟨mapLookup_mapInsert_self _ _ _, mapLookup_mapInsert_self _ _ _,
    mapLookup_mapInsert_self _ _ _⟩

/-- Witness for C5: after a repeat request from `"DRONE_001"`, its verifier
still holds the original state (commitment `[14]`, not the newly sent
`[15]`) with only `lastChallenge` refreshed, while the pending challenge and
return address were overwritten. -/
theorem commitment_immutable_on_repeat_request_witness :
    mapLookup drone001
        (gsWithSession.handleAuthRequest requestD001 ("10.0.0.4", 44)
          [22]).1.droneVerifiers =
      some { verifierReg with lastChallenge := [22] } ∧
    mapLookup drone001
        (gsWithSession.handleAuthRequest requestD001 ("10.0.0.4", 44)
          [22]).1.pendingChallenges = some [22] ∧
    mapLookup drone001
        (gsWithSession.handleAuthRequest requestD001 ("10.0.0.4", 44)
          [22]).1.droneAddresses = some ("10.0.0.4", 44) :=
  commitment_immutable_on_repeat_request gsWithSession requestD001
    ("10.0.0.4", 44) [22] 9 1 drone001 verifierReg
    (by decide) (by decide) (by decide) (by decide) (by decide) (by decide)
    (by decide) (by decide)

/-! ## C3: a pending challenge is cleared exactly on successful verification -/

/-- C3. When a deserialized proof matches the pending challenge of a
(non-empty) identity whose verifier exists and whose `verifyProof` call
returns `b`, `handleProof` erases that identity's pending challenge and
replies AUTH_SUCCESS if `b = true`, and leaves `pendingChallenges` untouched
(the same challenge stays available for further attempts) and replies
AUTH_FAILURE if `b = false`. -/
theorem challenge_cleared_iff_success (gs : GroundStation) (proof : ZKProof)
    (src : Addr) (now elapsed : Nat) (entry : Identity × List Nat)
    (verifier verifier' : ZKPModule) (b : Bool)
    (hfind : gs.pendingChallenges.find? (fun e => e.2 == proof.challenge) =
      some entry)
    (hid : entry.1 ≠ [])
    (hver : mapLookup entry.1 gs.droneVerifiers = some verifier)
    (hrun : verifier.verifyProof proof now elapsed = .ok (b, verifier')) :
    gs.processProof proof src now elapsed =
      some (if b then
              { gs with
                  droneVerifiers :=
                    mapInsert entry.1 verifier' gs.droneVerifiers,
                  numAuthSuccess := gs.numAuthSuccess + 1,
                  pendingChallenges := mapErase entry.1 gs.pendingChallenges }
            else
              { gs with
                  droneVerifiers :=
                    mapInsert entry.1 verifier' gs.droneVerifiers,
                  numAuthFailures := gs.numAuthFailures + 1 },
            [(if b then authSuccessMsg else authFailureMsg, src)]) := by
  simp only [GroundStation.processProof, hfind, hver, hrun, if_neg hid]
  cases b
  · simp
  · simp

/-- Witness for C3 at a concrete successful verification: the pending
challenge for `"DRONE_001"` is erased and AUTH_SUCCESS is sent. -/
theorem challenge_cleared_iff_success_witness :
    gsC3.processProof proofC3 ("10.0.0.5", 50) 0 3 =
      some (if true then
              { gsC3 with
                  droneVerifiers :=
                    mapInsert drone001
                      { verifierC3 with lastStats :=
                        { verifierC3.lastStats with verificationTime := 3 } }
                      gsC3.droneVerifiers,
                  numAuthSuccess := gsC3.numAuthSuccess + 1,
                  pendingChallenges := mapErase drone001 gsC3.pendingChallenges }
            else
              { gsC3 with
                  droneVerifiers :=
                    mapInsert drone001
                      { verifierC3 with lastStats :=
                        { verifierC3.lastStats with verificationTime := 3 } }
                      gsC3.droneVerifiers,
                  numAuthFailures := gsC3.numAuthFailures + 1 },
            [(if true then authSuccessMsg else authFailureMsg,
              ("10.0.0.5", 50))]) :=
  challenge_cleared_iff_success gsC3 proofC3 ("10.0.0.5", 50) 0 3
    (drone001, [10]) verifierC3
    { verifierC3 with lastStats :=
      { verifierC3.lastStats with verificationTime := 3 } }
    true (by decide) (by decide) (by decide) rfl

/-! ## C7: a replaced challenge no longer authenticates -/

/-- C7. An identity with an existing session (verifier present, challenge
`c1` pending, key-unique pending map) sends a second well-formed
AUTH_REQUEST, for which the server generates the fresh challenge `chal ≠ c1`
(challenges are unique across calls): the request overwrites the pending
challenge with `chal`, and a subsequently received proof built against the
replaced challenge `c1` matches no session's pending challenge, so the proof
handler answers AUTH_FAILURE and leaves the state unchanged. -/
theorem stale_challenge_rejected (gs : GroundStation) (data : List Nat)
    (src src2 : Addr) (c1 chal : List Nat) (p : ZKProof)
    (now elapsed : Nat) (idLen commitLen : Nat) (droneId : Identity)
    (v : ZKPModule)
    (hidLen : idLen = readLE ((data.drop 1).take 4))
    (hid : droneId = (data.drop 5).take idLen)
    (hcLen : commitLen = readLE ((data.drop (5 + idLen)).take 4))
    (h9 : ¬ data.length < 9)
    (hfit : ¬ data.length < 5 + idLen + 4)
    (hcfit : ¬ data.length < 5 + idLen + 4 + commitLen)
    (hauth : droneId ∈ authorizedDrones)
    (hv : mapLookup droneId gs.droneVerifiers = some v)
    (hpend : mapLookup droneId gs.pendingChallenges = some c1)
    (hnd : keysNodup gs.pendingChallenges)
    (honly : ∀ e ∈ gs.pendingChallenges, e.2 = c1 → e.1 = droneId)
    (hne : c1 ≠ chal)
    (hp : p.challenge = c1) :
    mapLookup droneId (gs.handleAuthRequest data src chal).1.pendingChallenges =
      some chal ∧
    (gs.handleAuthRequest data src chal).1.processProof p src2 now elapsed =
      some ((gs.handleAuthRequest data src chal).1, [(authFailureMsg, src2)]) := by
  rw [handleAuthRequest_found gs data src chal idLen commitLen droneId v
    hidLen hid hcLen h9 hfit hcfit hauth hv]
  refine ⟨mapLookup_mapInsert_self _ _ _, ?_⟩
  have hnone : (mapInsert droneId chal gs.pendingChallenges).find?
      (fun e => e.2 == p.challenge) = none := by
    rw [List.find?_eq_none]
    intro e he hbeq
    have he2 : e.2 = c1 := by
      rw [← hp]
      exact eq_of_beq hbeq
    rcases mem_mapInsert hnd he with rfl | ⟨hmem, hkey⟩
    · exact hne (he2.symm)
    · exact hkey (honly e hmem he2)
  simp only [GroundStation.processProof, hnone]
  rfl

/-- Witness for C7: after `"DRONE_003"`'s second request (fresh challenge
`[22]`), a proof citing the stale challenge `[11]` is answered with
AUTH_FAILURE and changes nothing. -/
theorem stale_challenge_rejected_witness :
    mapLookup drone003
        (gsC7.handleAuthRequest requestD003 ("10.0.0.6", 60)
          [22]).1.pendingChallenges = some [22] ∧
    (gsC7.handleAuthRequest requestD003 ("10.0.0.6", 60)
        [22]).1.processProof proofC7 ("10.0.0.6", 61) 0 2 =
      some ((gsC7.handleAuthRequest requestD003 ("10.0.0.6", 60) [22]).1,
            [(authFailureMsg, ("10.0.0.6", 61))]) :=
  stale_challenge_rejected gsC7 requestD003 ("10.0.0.6", 60) ("10.0.0.6", 61)
    [11] [22] proofC7 0 2 9 1 drone003 verifierC7
    (by decide) (by decide) (by decide) (by decide) (by decide) (by decide)
    (by decide) (by decide) (by decide) (by unfold keysNodup; decide)
    (by decide) (by decide) rfl

/-! ## C8: timeout enters Failed and schedules a retry -/

/-- C8. When the authentication timeout fires at time `now` (which can only
happen while no terminal response has been handled, since both terminal
handlers cancel and delete the timeout message), the client records the
failure and turns red — the Failed state — deletes the fired timeout
message, and schedules a fresh AUTH_REQUEST self-message at exactly
`now + ri`, the configured retry interval after the timeout fired. The
stored challenge and counters other than the failure counter are
untouched. -/
theorem timeout_enters_failed_and_schedules_retry (app : DroneAuthApp)
    (now ri : ℚ) :
    (app.handleAuthTimeout now ri).1.numAuthFailures =
      app.numAuthFailures + 1 ∧
    (app.handleAuthTimeout now ri).1.parentDisplayColor = "red" ∧
    (app.handleAuthTimeout now ri).1.timeoutMsgExists = false ∧
    (app.handleAuthTimeout now ri).1.currentChallenge = app.currentChallenge ∧
    (app.handleAuthTimeout now ri).1.numAuthSuccess = app.numAuthSuccess ∧
    (app.handleAuthTimeout now ri).2 =
      [(now + ri, SelfMsgKind.sendAuthRequest)] :=
  ⟨rfl, rfl, rfl, rfl, rfl, rfl⟩

/-! ## C10: CHALLENGE handling is independent of client state -/

/-- C10. For every client state `app` — the dispatcher checks no
session-state precondition, so this includes states reached after a terminal
success or failure — a well-formed CHALLENGE message overwrites the stored
current challenge with the one carried by the message and schedules a proof
generation and send exactly 1 millisecond (0.001 s) later; nothing else in
the client state changes. -/
theorem challenge_overwrites_in_any_state (app : DroneAuthApp)
    (rest : List Nat) (now : ℚ) (chalLen : Nat)
    (hcl : chalLen = readLE (((2 :: rest : List Nat).drop 1).take 4))
    (h5 : ¬ (2 :: rest : List Nat).length < 5)
    (hfit : ¬ (2 :: rest : List Nat).length < 5 + chalLen) :
    app.handleIncomingMessage (2 :: rest) now =
      ({ app with currentChallenge := ((2 :: rest : List Nat).drop 5).take chalLen },
       [(now + 1 / 1000, SelfMsgKind.sendProof)]) := by
  subst hcl
  simp only [DroneAuthApp.handleIncomingMessage,
    DroneAuthApp.handleChallengeMessage, if_pos rfl, if_true, if_neg h5,
    if_neg hfit]

/-- Witness for C10: even in a state reached after AUTH_SUCCESS, a CHALLENGE
message carrying `[7, 8, 9]` overwrites the stored challenge and schedules
the proof send 1 ms later. -/
theorem challenge_overwrites_in_any_state_witness :
    appC10.handleIncomingMessage [2, 3, 0, 0, 0, 7, 8, 9] 5 =
      ({ appC10 with currentChallenge :=
          (([2, 3, 0, 0, 0, 7, 8, 9] : List Nat).drop 5).take 3 },
       [((5 : ℚ) + 1 / 1000, SelfMsgKind.sendProof)]) :=
  challenge_overwrites_in_any_state appC10 [3, 0, 0, 0, 7, 8, 9] 5 3
    (by decide) (by decide) (by decide)

end DroneAuth
